import Mathlib

/-!
Shallow embedding of the video encoding session core of `displayrecorder`
(`src/video/encoding_session.rs`): the sample generator (frame pull, timestamp
baseline, region clamp, compose surface), the sample writer (sink-writer call
sequence) and the session orchestrator (start/stop), together with theorems
about the properties the specification states for them.

Modelling conventions:
- `i32` values (sizes, timestamps' `Duration` which is `i64`) are embedded as
  `Int`; `u32` values (texture descriptor dimensions) as `Nat`.  The `as i32` /
  `as u32` casts that appear in the source are modelled explicitly where they
  matter (`u32_as_i32`).
- Calls into external COM objects (the `IMFSinkWriter`) are recorded as a
  transcript of issued calls, since the repository's own code is exactly the
  sequence of calls it issues.
- GPU surfaces are total pixel functions `Nat → Nat → Color`; the clear and
  region-copy operations act on them pointwise.  The `f32` components of
  `CLEAR_COLOR` are the exact constants 0.0 and 1.0, embedded as rationals
  (no floating-point arithmetic is ever performed on them in the source).
-/

namespace DisplayRecorder

/-- `windows::Graphics::SizeInt32`: a pair of `i32` dimensions. -/
structure SizeInt32 where
  Width : Int
  Height : Int
deriving DecidableEq, Repr

/-- `windows::Foundation::TimeSpan`: an `i64` duration in 100ns ticks. -/
structure TimeSpan where
  Duration : Int
deriving DecidableEq, Repr

/-- `windows::runtime::Error`, abstracted to its observable code and message. -/
structure WinError where
  code : Int
  message : String
deriving DecidableEq, Repr

/-- `fn ensure_even(value: i32) -> i32` (encoding_session.rs:327):
`if value % 2 == 0 { value } else { value + 1 }`.  Rust `%` is truncated
division remainder; for the test `value % 2 == 0` the truncated and Euclidean
remainders agree (both are zero exactly on even values), so Lean's `%` on
`Int` models the branch condition faithfully. -/
def ensure_even (value : Int) : Int :=
  if value % 2 = 0 then value else value + 1

/-- `fn ensure_even_size(size: SizeInt32) -> SizeInt32` (encoding_session.rs:335). -/
def ensure_even_size (size : SizeInt32) : SizeInt32 :=
  { Width := ensure_even size.Width, Height := ensure_even size.Height }

/-- Rust's `u32 as i32` cast: reinterpret the 32-bit pattern as signed. -/
def u32_as_i32 (n : Nat) : Int :=
  if n < 2 ^ 31 then (n : Int) else (n : Int) - 2 ^ 32

/-- Rust's `i32::clamp(self, min, max)` = `max(min(self, max), min)`.
(Defined behaviour requires `min ≤ max`; the call sites pass `min = 0`.) -/
def i32_clamp (v lo hi : Int) : Int :=
  max lo (min v hi)

/-- `D3D11_BOX` with the fields the source sets (encoding_session.rs:233). -/
structure D3D11_BOX where
  left : Nat
  top : Nat
  front : Nat
  right : Nat
  bottom : Nat
  back : Nat
deriving DecidableEq, Repr

/-- The copy region computed in `SampleGenerator::generate_from_frame`
(encoding_session.rs:230-240):
`width  = content_size.Width.clamp(0, desc.Width as i32) as u32`,
`height = content_size.Height.clamp(0, desc.Height as i32) as u32`,
then `D3D11_BOX { left: 0, right: width, top: 0, bottom: height, back: 1, front: 0 }`.
`descWidth`/`descHeight` are the `u32` dimensions of the frame's underlying
texture. -/
def copy_region (content_size : SizeInt32) (descWidth descHeight : Nat) : D3D11_BOX :=
  let width := (i32_clamp content_size.Width 0 (u32_as_i32 descWidth)).toNat
  let height := (i32_clamp content_size.Height 0 (u32_as_i32 descHeight)).toNat
  { left := 0, right := width, top := 0, bottom := height, back := 1, front := 0 }

/-- A captured frame as `generate_from_frame` reads it: its logical content
size and its source timestamp (`frame.system_relative_time`).  The GPU texture
itself is carried separately where a claim needs its pixels or dimensions. -/
structure CaptureFrame where
  content_size : SizeInt32
  system_relative_time : TimeSpan
deriving DecidableEq, Repr

/-- The timestamp-relevant fields of `SampleGenerator`
(encoding_session.rs:55-56): `seen_first_time_stamp: bool`,
`first_timestamp: TimeSpan`. -/
structure GenState where
  seen_first_time_stamp : Bool
  first_timestamp : TimeSpan
deriving DecidableEq, Repr

/-- The generator's state at construction (encoding_session.rs:175-176):
`seen_first_time_stamp: false, first_timestamp: TimeSpan::default()`. -/
def initGenState : GenState :=
  { seen_first_time_stamp := false, first_timestamp := ⟨0⟩ }

/-- The timestamp logic of `SampleGenerator::generate_from_frame`
(encoding_session.rs:210-217): on the first frame latch the baseline, then
emit `frame.system_relative_time - first_timestamp`. -/
def stampFrame (s : GenState) (t : TimeSpan) : GenState × TimeSpan :=
  let s :=
    if s.seen_first_time_stamp then s
    else { seen_first_time_stamp := true, first_timestamp := t }
  (s, ⟨t.Duration - s.first_timestamp.Duration⟩)

/-- Feed a sequence of frame timestamps through the generator's timestamp
logic, returning the final state and the emitted timestamps in order. -/
def runGen (s : GenState) : List TimeSpan → GenState × List TimeSpan
  | [] => (s, [])
  | t :: ts =>
    let p := stampFrame s t
    let q := runGen p.1 ts
    (q.1, p.2 :: q.2)

/-- Modelled from the spec: `CaptureFrameWait` lives in `capture.rs`, which is
not under `src/`; the spec gives its contract as a Frame Source with
`try_next_frame() -> Option<CaptureFrame>` (a poll returning `None` when the
source is exhausted) and `request_stop()`.  We model it as a queue of pending
frames plus counters of the pull attempts and stop requests it has received,
so that the generator's interaction with it is observable. -/
structure CaptureFrameWait where
  pending_frames : List CaptureFrame
  pull_attempts : Nat
  stop_requests : Nat
deriving DecidableEq, Repr

/-- Modelled from the spec: one poll of the Frame Source.  Every call counts
as a pull attempt; it yields the next pending frame, or `none` when the source
is exhausted. -/
def try_get_next_frame (w : CaptureFrameWait) : CaptureFrameWait × Option CaptureFrame :=
  match w.pending_frames with
  | [] => ({ w with pull_attempts := w.pull_attempts + 1 }, none)
  | f :: rest =>
    ({ w with pull_attempts := w.pull_attempts + 1, pending_frames := rest }, some f)

/-- Modelled from the spec: `request_stop()` on the Frame Source; recorded as
one stop request. -/
def stop_capture_wait (w : CaptureFrameWait) : CaptureFrameWait :=
  { w with stop_requests := w.stop_requests + 1 }

/-- An encoder input sample as `generate_from_frame` returns it
(`VideoEncoderInputSample::new(timestamp, sample_texture)`); the texture is
abstracted away, the emitted timestamp is kept. -/
structure VideoEncoderInputSample where
  timestamp : TimeSpan
deriving DecidableEq, Repr

/-- `SampleGenerator` (encoding_session.rs:45-57) restricted to the state its
control flow reads and writes: the frame source and the timestamp baseline. -/
structure SampleGenerator where
  frame_wait : CaptureFrameWait
  seen_first_time_stamp : Bool
  first_timestamp : TimeSpan
deriving DecidableEq, Repr

/-- `SampleGenerator::generate` (encoding_session.rs:184-203) on its nominal
path (the GPU compose/convert steps succeed; the error path is modelled by
`generate_model` below).  The code pulls from `frame_wait` unconditionally on
every call; on a frame it runs `generate_from_frame` (here: the timestamp
logic of lines 210-217); on `None` it calls `stop_capture` and returns
`None`. -/
def SampleGenerator.generate (g : SampleGenerator) :
    SampleGenerator × Option VideoEncoderInputSample :=
  let p := try_get_next_frame g.frame_wait
  match p.2 with
  | some frame =>
    let g1 :=
      if g.seen_first_time_stamp then { g with frame_wait := p.1 }
      else
        { g with
          frame_wait := p.1
          seen_first_time_stamp := true
          first_timestamp := frame.system_relative_time }
    (g1, some ⟨⟨frame.system_relative_time.Duration - g1.first_timestamp.Duration⟩⟩)
  | none => ({ g with frame_wait := stop_capture_wait p.1 }, none)

/-- What `generate` observably does besides its return value: which errors it
printed with `eprintln!` and how many times it called `stop_capture`. -/
structure GenerateEffects where
  logged_errors : List WinError
  stop_capture_calls : Nat
deriving DecidableEq, Repr

/-- `SampleGenerator::generate` (encoding_session.rs:184-203) with its fallible
collaborators made explicit: `pull` is the outcome of
`self.frame_wait.try_get_next_frame()` (propagated by `?` on error), `gff` the
outcome of `self.generate_from_frame(&frame)`, and `stop` the outcome of
`self.stop_capture()` (propagated by `?` on error).  On a `gff` error the code
logs it, calls `stop_capture`, and returns `Ok(None)`. -/
def generate_model (pull : Except WinError (Option CaptureFrame))
    (gff : CaptureFrame → Except WinError VideoEncoderInputSample)
    (stop : Except WinError Unit) :
    Except WinError (Option VideoEncoderInputSample) × GenerateEffects :=
  match pull with
  | .error e => (.error e, ⟨[], 0⟩)
  | .ok none =>
    match stop with
    | .ok _ => (.ok none, ⟨[], 1⟩)
    | .error e2 => (.error e2, ⟨[], 1⟩)
  | .ok (some frame) =>
    match gff frame with
    | .ok sample => (.ok (some sample), ⟨[], 0⟩)
    | .error e =>
      match stop with
      | .ok _ => (.ok none, ⟨[e], 1⟩)
      | .error e2 => (.error e2, ⟨[e], 1⟩)

/-- One call issued to the external `IMFSinkWriter` COM object. -/
inductive SinkWriterCall where
  | begin_writing
  | write_sample (stream_index : Nat) (sample : Nat)
  | finalize
deriving DecidableEq, Repr

/-- `SampleWriter` (encoding_session.rs:59-63): the stored stream index, plus
the transcript of calls it has issued to its `IMFSinkWriter` (the repository's
own behaviour is exactly this call sequence; what the sink does with each call
is external). -/
structure SampleWriter where
  sink_writer_stream_index : Nat
  sink_calls : List SinkWriterCall
deriving DecidableEq, Repr

/-- `SampleWriter::start` (encoding_session.rs:309-311):
`self.sink_writer.BeginWriting()`, unconditionally. -/
def SampleWriter.start (w : SampleWriter) : SampleWriter :=
  { w with sink_calls := w.sink_calls ++ [.begin_writing] }

/-- `SampleWriter::stop` (encoding_session.rs:313-315):
`self.sink_writer.Finalize()`, unconditionally — no finalized flag exists. -/
def SampleWriter.stop (w : SampleWriter) : SampleWriter :=
  { w with sink_calls := w.sink_calls ++ [.finalize] }

/-- `SampleWriter::write` (encoding_session.rs:317-322):
`self.sink_writer.WriteSample(self.sink_writer_stream_index, sample)`,
unconditionally — there is no check of any finalized state.  `sample` is an
opaque handle for the `IMFSample`. -/
def SampleWriter.write (w : SampleWriter) (sample : Nat) : SampleWriter :=
  { w with sink_calls := w.sink_calls ++ [.write_sample w.sink_writer_stream_index sample] }

/-- The number of `Finalize` calls the writer has issued to its sink. -/
def finalize_count (w : SampleWriter) : Nat :=
  w.sink_calls.count .finalize

/-- `VideoEncodingSession` (encoding_session.rs:39-43) restricted to what its
`stop` path touches: the encoder (modelled from the spec, see
`VideoEncodingSession.stop`) and the shared `SampleWriter`. -/
structure VideoEncodingSession where
  encoder_stop_calls : Nat
  sample_writer : SampleWriter
deriving DecidableEq, Repr

/-- `VideoEncodingSession::stop` (encoding_session.rs:115-119):
`self.video_encoder.stop()?; self.sample_writer.stop()?`.
Modelled from the spec: `VideoEncoder::stop` lives in `encoder.rs`, which is
not under `src/`; the spec's contract (§4.1, §6) has it signal the hardware
encoder to drain and stop, synchronously and successfully, so it is modelled
as a successful call (counted), after which the writer's `stop` runs. -/
def VideoEncodingSession.stop (s : VideoEncodingSession) : VideoEncodingSession :=
  { encoder_stop_calls := s.encoder_stop_calls + 1
    sample_writer := s.sample_writer.stop }

/-- The observable outcome of `VideoEncodingSession::start`: success, an error
returned to the caller, or a panic (the `assert!` on line 111 failing). -/
inductive StartOutcome where
  | ok
  | err (e : WinError)
  | panicked
deriving DecidableEq, Repr

/-- `VideoEncodingSession::start` (encoding_session.rs:108-113):
`self.sample_writer.start()?; self.capture_session.StartCapture()?;
assert!(self.video_encoder.try_start()?)`.  The three fallible collaborator
calls are passed in as outcomes; `try_start` is `encoder.rs` code not under
`src/`, with spec contract `try_start() -> bool`.  An `Err` from any of the
three propagates via `?`; a returned `false` fails the `assert!`, which
panics. -/
def session_start (writer_start : Except WinError Unit)
    (start_capture : Except WinError Unit)
    (encoder_try_start : Except WinError Bool) : StartOutcome :=
  match writer_start with
  | .error e => .err e
  | .ok _ =>
    match start_capture with
    | .error e => .err e
    | .ok _ =>
      match encoder_try_start with
      | .error e => .err e
      | .ok b => if b then .ok else .panicked

/-- An RGBA colour.  The `f32` components of `CLEAR_COLOR` are the exact
constants `0.0` and `1.0`; no floating-point arithmetic touches them in the
source, so exact rationals embed them faithfully. -/
abbrev Color := ℚ × ℚ × ℚ × ℚ

/-- `const CLEAR_COLOR: [f32; 4] = [0.0, 0.0, 0.0, 1.0]`
(encoding_session.rs:325): opaque black. -/
def CLEAR_COLOR : Color := (0, 0, 0, 1)

/-- A GPU surface as a total pixel function. -/
abbrev Surface := Nat → Nat → Color

/-- `ID3D11DeviceContext::ClearRenderTargetView`: every pixel of the target
becomes the clear colour. -/
def clear_render_target_view (clear : Color) : Surface :=
  fun _ _ => clear

/-- `ID3D11DeviceContext::CopySubresourceRegion` with destination offset
(0, 0, 0) as called on encoding_session.rs:245-254: pixels inside `box`
(with `left = top = 0` at the call site) come from the source, the rest keep
the destination's value. -/
def copy_subresource_region (dst src : Surface) (box : D3D11_BOX) : Surface :=
  fun x y =>
    if box.left ≤ x ∧ x < box.right ∧ box.top ≤ y ∧ y < box.bottom then src x y
    else dst x y

/-- The compose step of `SampleGenerator::generate_from_frame`
(encoding_session.rs:242-254): clear the composition surface to `CLEAR_COLOR`,
then copy the clamped region of the frame into its top-left. -/
def compose_frame (frame_pixels : Surface) (content_size : SizeInt32)
    (descWidth descHeight : Nat) : Surface :=
  copy_subresource_region (clear_render_target_view CLEAR_COLOR) frame_pixels
    (copy_region content_size descWidth descHeight)

/-! ## Helper lemmas -/

theorem ensure_even_eq (v : Int) : ensure_even v = v + v % 2 := by
  unfold ensure_even
  rcases Int.emod_two_eq v with h | h <;> simp [h]

theorem runGen_seen (b : TimeSpan) (ts : List TimeSpan) :
    runGen ⟨true, b⟩ ts = (⟨true, b⟩, ts.map fun t => ⟨t.Duration - b.Duration⟩) := by
  induction ts with
  | nil => rfl
  | cons t ts ih => simp [runGen, stampFrame, ih]

theorem runGen_cons (t0 : TimeSpan) (ts : List TimeSpan) :
    runGen initGenState (t0 :: ts) =
      (⟨true, t0⟩, ⟨0⟩ :: ts.map fun t => ⟨t.Duration - t0.Duration⟩) := by
  simp [runGen, initGenState, stampFrame, runGen_seen]

/-! ## Claim theorems -/

/-- C1: for every sequence of frames fed through the sample generator, each
emitted timestamp equals that frame's source timestamp minus the source
timestamp of the first frame ever seen; the baseline is latched on the first
frame and the final generator state still holds it (never reset), and the
first emitted timestamp is exactly 0. -/
theorem C1_timestamp_baseline (t0 : TimeSpan) (ts : List TimeSpan) :
    (runGen initGenState (t0 :: ts)).2 =
      (t0 :: ts).map (fun t => ⟨t.Duration - t0.Duration⟩) ∧
    ((runGen initGenState (t0 :: ts)).2).head? = some ⟨0⟩ ∧
    (runGen initGenState (t0 :: ts)).1 =
      { seen_first_time_stamp := true, first_timestamp := t0 } := by
  refine ⟨?_, ?_, ?_⟩ <;> simp [runGen_cons]

/-- C5: `ensure_even_size` returns the size with each odd dimension bumped by
one — `width + width % 2`, `height + height % 2` — so both output dimensions
are even; an already-even size is returned unchanged; and `101×51` maps to
`102×52`. -/
theorem C5_ensure_even_size (size : SizeInt32) :
    (ensure_even_size size).Width = size.Width + size.Width % 2 ∧
    (ensure_even_size size).Height = size.Height + size.Height % 2 ∧
    (ensure_even_size size).Width % 2 = 0 ∧
    (ensure_even_size size).Height % 2 = 0 ∧
    (size.Width % 2 = 0 → size.Height % 2 = 0 → ensure_even_size size = size) ∧
    ensure_even_size ⟨101, 51⟩ = ⟨102, 52⟩ := by
  obtain ⟨w, h⟩ := size
  have hw := ensure_even_eq w
  have hh := ensure_even_eq h
  refine ⟨hw, hh, by simp only [ensure_even_size] at hw ⊢; omega,
    by simp only [ensure_even_size] at hh ⊢; omega, ?_, by decide⟩
  intro hw0 hh0
  simp [ensure_even_size, ensure_even, hw0, hh0]

theorem C5_witness :
    ensure_even_size ⟨4, 6⟩ = ⟨4, 6⟩ ∧ ensure_even_size ⟨101, 51⟩ = ⟨102, 52⟩ :=
  ⟨(C5_ensure_even_size ⟨4, 6⟩).2.2.2.2.1 (by decide) (by decide),
   (C5_ensure_even_size ⟨101, 51⟩).2.2.2.2.2⟩

/-- C4: the copy region of `generate_from_frame` is
`clamp(content_size, 0, buffer_size)` in each dimension, so it never exceeds
the underlying buffer's bounds; the `clamp` precondition `min ≤ max` holds
(`0 ≤ buffer dimension`), so no panic occurs.  The `2^31` bounds say the `u32`
texture dimensions are representable as `i32`, as D3D11 guarantees. -/
theorem C4_copy_region_clamped (content_size : SizeInt32) (descWidth descHeight : Nat)
    (hW : descWidth < 2 ^ 31) (hH : descHeight < 2 ^ 31) :
    (copy_region content_size descWidth descHeight).right ≤ descWidth ∧
    (copy_region content_size descWidth descHeight).bottom ≤ descHeight ∧
    ((copy_region content_size descWidth descHeight).right : Int) =
      i32_clamp content_size.Width 0 (u32_as_i32 descWidth) ∧
    ((copy_region content_size descWidth descHeight).bottom : Int) =
      i32_clamp content_size.Height 0 (u32_as_i32 descHeight) ∧
    0 ≤ u32_as_i32 descWidth ∧ 0 ≤ u32_as_i32 descHeight := by
  have hW' : u32_as_i32 descWidth = (descWidth : Int) := by
    unfold u32_as_i32; rw [if_pos hW]
  have hH' : u32_as_i32 descHeight = (descHeight : Int) := by
    unfold u32_as_i32; rw [if_pos hH]
  simp only [copy_region, i32_clamp, hW', hH']
  refine ⟨?_, ?_, ?_, ?_, ?_, ?_⟩ <;> omega

theorem C4_witness :
    copy_region ⟨2000, 2000⟩ 1920 1080 =
      { left := 0, top := 0, front := 0, right := 1920, bottom := 1080, back := 1 } ∧
    (copy_region ⟨2000, 2000⟩ 1920 1080).right ≤ 1920 ∧
    (copy_region ⟨2000, 2000⟩ 1920 1080).bottom ≤ 1080 :=
  ⟨by decide,
   (C4_copy_region_clamped ⟨2000, 2000⟩ 1920 1080 (by decide) (by decide)).1,
   (C4_copy_region_clamped ⟨2000, 2000⟩ 1920 1080 (by decide) (by decide)).2.1⟩

/-- C8: for every sequence of frames with non-decreasing source timestamps,
the emitted timestamps are non-negative and non-decreasing. -/
theorem C8_monotone_timestamps (l : List TimeSpan)
    (h : l.Sorted fun a b => a.Duration ≤ b.Duration) :
    (∀ e ∈ (runGen initGenState l).2, 0 ≤ e.Duration) ∧
    ((runGen initGenState l).2.Sorted fun a b => a.Duration ≤ b.Duration) := by
  cases l with
  | nil => simp [runGen]
  | cons t0 ts =>
    rw [List.sorted_cons] at h
    obtain ⟨h1, h2⟩ := h
    simp only [runGen_cons]
    refine ⟨?_, ?_⟩
    · intro e he
      rcases List.mem_cons.mp he with rfl | hm
      · simp
      · obtain ⟨t, ht, rfl⟩ := List.mem_map.mp hm
        have := h1 t ht
        simp only
        omega
    · rw [List.sorted_cons]
      refine ⟨?_, ?_⟩
      · intro b hb
        obtain ⟨t, ht, rfl⟩ := List.mem_map.mp hb
        have := h1 t ht
        simp only
        omega
      · rw [List.Sorted, List.pairwise_map]
        exact h2.imp fun hab => by simp only; omega

theorem C8_witness :
    ((∀ e ∈ (runGen initGenState [⟨1000⟩, ⟨1500⟩, ⟨2200⟩]).2, 0 ≤ e.Duration) ∧
     ((runGen initGenState [⟨1000⟩, ⟨1500⟩, ⟨2200⟩]).2.Sorted
        fun a b => a.Duration ≤ b.Duration)) ∧
    (runGen initGenState [⟨1000⟩, ⟨1500⟩, ⟨2200⟩]).2 = [⟨0⟩, ⟨500⟩, ⟨1200⟩] :=
  ⟨C8_monotone_timestamps [⟨1000⟩, ⟨1500⟩, ⟨2200⟩] (by decide), by decide⟩

/-- C2: when the frame pull yields a frame, `generate_from_frame` fails with
any error, and the subsequent `stop_capture` call succeeds, `generate` logs
the error, stops capture (exactly one stop call), and returns a successful
`None`; the generation error is not propagated to the caller. -/
theorem C2_error_absorbed (frame : CaptureFrame)
    (gff : CaptureFrame → Except WinError VideoEncoderInputSample)
    (e : WinError) (stop : Except WinError Unit)
    (hg : gff frame = .error e) (hs : stop = .ok ()) :
    generate_model (.ok (some frame)) gff stop = (.ok none, ⟨[e], 1⟩) := by
  simp [generate_model, hg, hs]

theorem C2_witness :
    generate_model (.ok (some ⟨⟨100, 100⟩, ⟨5⟩⟩))
      (fun _ => .error ⟨-2005270523, "device removed"⟩) (.ok ()) =
      (.ok none, ⟨[⟨-2005270523, "device removed"⟩], 1⟩) :=
  C2_error_absorbed ⟨⟨100, 100⟩, ⟨5⟩⟩
    (fun _ => .error ⟨-2005270523, "device removed"⟩)
    ⟨-2005270523, "device removed"⟩ (.ok ()) rfl rfl

/-- C3 counterexample: starting from a fresh session, calling
`VideoEncodingSession.stop` twice issues two `Finalize` calls on the sink
writer — not at most one. -/
theorem C3_counterexample :
    ¬ (finalize_count
        (VideoEncodingSession.stop (VideoEncodingSession.stop ⟨0, ⟨0, []⟩⟩)).sample_writer
          ≤ 1) ∧
    finalize_count
      (VideoEncodingSession.stop (VideoEncodingSession.stop ⟨0, ⟨0, []⟩⟩)).sample_writer
        = 2 := by
  decide

/-- C3 amended: `stop()` is not idempotent — each call finalizes the writer
exactly once (neither `VideoEncodingSession::stop` nor `SampleWriter::stop`
guards against a repeated call), so calling `stop()` twice performs two
finalizes. -/
theorem C3_amended_stop_finalizes (s : VideoEncodingSession) :
    finalize_count (VideoEncodingSession.stop s).sample_writer =
      finalize_count s.sample_writer + 1 ∧
    finalize_count
        (VideoEncodingSession.stop (VideoEncodingSession.stop s)).sample_writer =
      finalize_count s.sample_writer + 2 := by
  simp [VideoEncodingSession.stop, SampleWriter.stop, finalize_count,
    List.count_append]

/-- C6 counterexample: with an exhausted frame source, `generate` returns
`None` on the first call, and a second call attempts another pull (the pull
count reaches 2, not 1), signals capture-stop again, and returns `None`
again — so end-of-stream is not returned exactly once and the generator does
attempt further pulls. -/
theorem C6_counterexample :
    ((SampleGenerator.generate ⟨⟨[], 0, 0⟩, false, ⟨0⟩⟩).2 = none ∧
     (SampleGenerator.generate
        (SampleGenerator.generate ⟨⟨[], 0, 0⟩, false, ⟨0⟩⟩).1).2 = none) ∧
    ¬ ((SampleGenerator.generate
        (SampleGenerator.generate ⟨⟨[], 0, 0⟩, false, ⟨0⟩⟩).1).1.frame_wait.pull_attempts
          ≤ 1) ∧
    (SampleGenerator.generate
      (SampleGenerator.generate ⟨⟨[], 0, 0⟩, false, ⟨0⟩⟩).1).1.frame_wait.pull_attempts
        = 2 ∧
    (SampleGenerator.generate
      (SampleGenerator.generate ⟨⟨[], 0, 0⟩, false, ⟨0⟩⟩).1).1.frame_wait.stop_requests
        = 2 := by
  decide

/-- C6 amended: the generator keeps no stopped flag, so exhaustion handling is
per-call: every `generate()` call on an exhausted source attempts one more
pull, signals one more capture-stop, and returns `None` (on every such call,
not exactly once). -/
theorem C6_amended_exhausted_pull (g : SampleGenerator)
    (h : g.frame_wait.pending_frames = []) :
    (SampleGenerator.generate g).2 = none ∧
    (SampleGenerator.generate g).1.frame_wait.pull_attempts =
      g.frame_wait.pull_attempts + 1 ∧
    (SampleGenerator.generate g).1.frame_wait.stop_requests =
      g.frame_wait.stop_requests + 1 ∧
    (SampleGenerator.generate g).1.frame_wait.pending_frames = [] := by
  simp [SampleGenerator.generate, try_get_next_frame, stop_capture_wait, h]

theorem C6_amended_witness :
    (SampleGenerator.generate ⟨⟨[], 3, 1⟩, true, ⟨7⟩⟩).2 = none ∧
    (SampleGenerator.generate ⟨⟨[], 3, 1⟩, true, ⟨7⟩⟩).1.frame_wait.pull_attempts =
      3 + 1 ∧
    (SampleGenerator.generate ⟨⟨[], 3, 1⟩, true, ⟨7⟩⟩).1.frame_wait.stop_requests =
      1 + 1 ∧
    (SampleGenerator.generate ⟨⟨[], 3, 1⟩, true, ⟨7⟩⟩).1.frame_wait.pending_frames =
      [] :=
  C6_amended_exhausted_pull ⟨⟨[], 3, 1⟩, true, ⟨7⟩⟩ rfl

/-- C7 counterexample: with the writer armed and capture started, an encoder
`try_start` that reports failure by returning `false` makes `start()` panic on
its `assert!` — the session is not left in an error state with a callable
`stop()`. -/
theorem C7_counterexample :
    session_start (.ok ()) (.ok ()) (.ok false) = .panicked ∧
    StartOutcome.panicked ≠ StartOutcome.ok := by
  decide

/-- C7 amended: if the encoder's `try_start` returns an `Err`, `start()`
propagates it (the session is left in an error state, no panic) and `stop()`
is still callable — it performs its encoder-stop and exactly one writer
finalize; but if `try_start` reports failure by returning `false`, `start()`
panics on the `assert!`. -/
theorem C7_amended_start_outcomes (e : WinError) (s : VideoEncodingSession) :
    session_start (.ok ()) (.ok ()) (.error e) = .err e ∧
    session_start (.ok ()) (.ok ()) (.ok false) = .panicked ∧
    session_start (.ok ()) (.ok ()) (.ok true) = .ok ∧
    (VideoEncodingSession.stop s).sample_writer.sink_calls =
      s.sample_writer.sink_calls ++ [.finalize] := by
  refine ⟨rfl, rfl, rfl, ?_⟩
  simp [VideoEncodingSession.stop, SampleWriter.stop]

/-- C9 counterexample: after `stop()` has issued `Finalize`, a further
`write()` still issues a `WriteSample` call on the sink writer — the call
transcript grows — so the write attempt is not suppressed by the repository's
code, which performs no finalized-state check and defines no
`UseAfterFinalize` error. -/
theorem C9_counterexample :
    ¬ ((SampleWriter.write (SampleWriter.stop ⟨0, [.begin_writing]⟩) 7).sink_calls =
        (SampleWriter.stop ⟨0, [.begin_writing]⟩).sink_calls) ∧
    (SampleWriter.write (SampleWriter.stop ⟨0, [.begin_writing]⟩) 7).sink_calls =
      [.begin_writing, .finalize, .write_sample 0 7] := by
  decide

/-- C9 amended: `SampleWriter::write` is an unconditional delegation — after
`stop()` it still issues `WriteSample(stream_index, sample)` to the sink
writer, right after the `Finalize`; any rejection of that call is decided by
the external `IMFSinkWriter`, not by this repository. -/
theorem C9_amended_write_after_stop (w : SampleWriter) (sample : Nat) :
    ((w.stop).write sample).sink_calls =
      w.sink_calls ++ [.finalize, .write_sample w.sink_writer_stream_index sample] := by
  simp [SampleWriter.stop, SampleWriter.write]

/-- C10: `generate_from_frame` clears the composition surface to
`CLEAR_COLOR` before copying the clamped region, so every pixel outside the
clamped region is the clear colour, which is exactly opaque black
`(0, 0, 0, 1)`. -/
theorem C10_clear_outside_region (frame_pixels : Surface) (content_size : SizeInt32)
    (descWidth descHeight : Nat) (x y : Nat)
    (h : (copy_region content_size descWidth descHeight).right ≤ x ∨
         (copy_region content_size descWidth descHeight).bottom ≤ y) :
    compose_frame frame_pixels content_size descWidth descHeight x y = CLEAR_COLOR ∧
    CLEAR_COLOR = (0, 0, 0, 1) := by
  refine ⟨?_, rfl⟩
  have hno : ¬ ((copy_region content_size descWidth descHeight).left ≤ x ∧
      x < (copy_region content_size descWidth descHeight).right ∧
      (copy_region content_size descWidth descHeight).top ≤ y ∧
      y < (copy_region content_size descWidth descHeight).bottom) := by
    rcases h with h | h <;> omega
  simp [compose_frame, copy_subresource_region, clear_render_target_view, hno]

theorem C10_witness :
    compose_frame (fun _ _ => ((1 : ℚ), (1 : ℚ), (1 : ℚ), (1 : ℚ)))
        ⟨1000, 500⟩ 1920 1080 1500 700 = CLEAR_COLOR ∧
    CLEAR_COLOR = (0, 0, 0, 1) :=
  C10_clear_outside_region (fun _ _ => ((1 : ℚ), (1 : ℚ), (1 : ℚ), (1 : ℚ)))
    ⟨1000, 500⟩ 1920 1080 1500 700 (by decide)

end DisplayRecorder
